import Mathlib

/-
Shallow embedding of the benchify benchmarking harness
(src/main.rs and src/wait_for_free_cpu.rs).

Modelling conventions:
- Rust std::time::Duration is modelled as a natural number of nanoseconds
  (Duration is u64 seconds + nanosecond remainder; its Sum/Div arithmetic is
  exact natural arithmetic on total nanoseconds, division truncating).
- f64/f32 arithmetic on seconds is modelled over the rationals.  Where the
  floating code would produce a non-finite value (a division by zero giving
  NaN or an infinity), the model makes that explicit with an Option or an
  explicit branch rather than silently adopting the Lean convention x/0 = 0.
- Fallible Rust code returning eyre::Result is modelled with Except String;
  the error strings keep the fixed part of the source's format messages.
-/

namespace Benchify

/-- Number of nanoseconds in one second, the resolution of std::time::Duration. -/
def nanosPerSec : ℕ := 1000000000

/-- Model of std::time::Duration: total nanoseconds. -/
abbrev Duration := ℕ

/-- Rust Duration::as_secs_f64 / as_secs_f32: the duration in seconds, modelled
exactly as a rational. -/
def asSecs (d : Duration) : ℚ := (d : ℚ) / (nanosPerSec : ℚ)

/-! Statistics reducer (main.rs lines 788-822).

The source record stores sample_stddev = sqrt(sample_variance) as a Duration.
Square roots of rationals are irrational in general, so the embedding carries
the value sample_variance that the source takes the square root of (the square
of the stored stddev, in seconds squared); sqrt is strictly monotone on
nonnegative reals, so equality/inequality of stddevs is settled at this level.
-/

/-- Statistics record of main.rs line 789 (mean, stddev, min, max, count), with
the pre-sqrt variance in place of its square root as explained above. -/
structure Statistics where
  mean : Duration
  sampleVariance : ℚ
  min : Duration
  max : Duration
  count : ℕ
deriving Repr, DecidableEq

/-- Rust data.iter().min().unwrap() for a nonempty list (0 as a dummy on []). -/
def durationListMin : List Duration → Duration
  | [] => 0
  | d :: rest => rest.foldl Nat.min d

/-- Rust data.iter().max().unwrap() for a nonempty list (0 as a dummy on []). -/
def durationListMax : List Duration → Duration
  | [] => 0
  | d :: rest => rest.foldl Nat.max d

/-- Line 804: mean = Duration::sum(data) / (count as u32); Duration division
truncates at nanosecond resolution. -/
def durationMean (data : List Duration) : Duration := data.sum / data.length

/-- f64 division, with a zero denominator made explicit: the float code would
produce NaN (0.0/0.0) or an infinity (x/0.0), both non-finite, modelled none. -/
def f64Div (a b : ℚ) : Option ℚ := if b = 0 then none else some (a / b)

/-- Lines 805-808 numerator: sum over the data of
(t.as_secs_f64() - mean.as_secs_f64()).powf(2.). -/
def squaredDeviationSum (data : List Duration) : ℚ :=
  (data.map (fun t => (asSecs t - asSecs (durationMean data)) ^ 2)).sum

/-- Statistics::new (lines 798-821).  Returns none exactly where the source
panics: the assert_ne!(count, 0) on the empty list, and
Duration::from_secs_f64 applied to a non-finite stddev, which happens
precisely when the variance denominator ((count - 1) as f64).powf(2.) is zero,
i.e. count = 1 (0.0/0.0 = NaN, sqrt(NaN) = NaN, from_secs_f64 panics on NaN).
Note the denominator of the source is the SQUARE of (count - 1). -/
def Statistics.new? (data : List Duration) : Option Statistics :=
  if data.length = 0 then none
  else
    match f64Div (squaredDeviationSum data) (((data.length - 1 : ℕ) : ℚ) ^ 2) with
    | none => none
    | some v =>
      some { mean := durationMean data
             sampleVariance := v
             min := durationListMin data
             max := durationListMax data
             count := data.length }

/-! Timing-source selection in Tool::run (main.rs lines 195-213).

After the child process has exited successfully, if the test sets
stdout_is_timing the program's stdout is parsed as a self-reported duration
and compared against the externally measured wall-clock elapsed time.  The
model takes the already-parsed reported duration and the measured elapsed
time as inputs; the interpolated parts of the error message are elided. -/

/-- Lines 195-212 of Tool::run: with stdout_is_timing set, the run errors iff
the reported timing is strictly GREATER than the measured elapsed time
(if timing > elapsed_time), and otherwise returns the reported timing;
without the flag the measured elapsed time is returned. -/
def runTimingResult (stdoutIsTiming : Bool) (reported elapsed : Duration) :
    Except String Duration :=
  if stdoutIsTiming then
    if reported > elapsed then
      Except.error "Program lied about elapsed time at stdout"
    else
      Except.ok reported
  else
    Except.ok elapsed

/-! Adaptive sampler: BenchifyConfig::get_timings (main.rs lines 449-548),
success path.  The run executions are modelled by a function giving the
duration of the i-th successful execution of the (test, tool) pair. -/

/-- u32::MAX, the saturation bound of Rust float-to-u32 casts. -/
def u32Max : ℕ := 4294967295

/-- Rust expr as u32 on a finite f32: truncation toward zero, negative values
saturating to 0 and large values to u32::MAX. -/
def castF32ToU32 (q : ℚ) : ℕ := min u32Max (Int.toNat ⌊q⌋)

/-- Line 457: let expected_time_seconds = 2.5f32. -/
def expectedTimeSeconds : ℚ := 5 / 2

/-- Line 455: let num_initial_estimates = self.max_runs().min(2). -/
def numInitialEstimates (maxRuns : ℕ) : ℕ := min maxRuns 2

/-- Lines 490-502: the num_initial_estimates initial-estimate executions,
which are real measurements kept in the sample set. -/
def initialEstimates (maxRuns : ℕ) (runs : ℕ → Duration) : List Duration :=
  (List.range (numInitialEstimates maxRuns)).map runs

/-- Lines 505-509: mean per-iteration seconds of the initial estimates
(f32 arithmetic, modelled exactly over ℚ). -/
def meanEstimatedSecs (maxRuns : ℕ) (runs : ℕ → Duration) : ℚ :=
  ((initialEstimates maxRuns runs).map asSecs).sum / (numInitialEstimates maxRuns : ℚ)

/-- The cast (expected_time_seconds / mean_estimated_time_per_iter_secs) as u32
of line 513.  When the mean is zero the f32 division is not finite: with no
initial estimates (max_runs = 0) the mean itself is 0.0/0.0 = NaN, so the
quotient is NaN and the cast gives 0; with estimates present the quotient is
2.5/0.0 = +inf and the cast saturates to u32::MAX. -/
def rawTargetCount (nie : ℕ) (meanSecs : ℚ) : ℕ :=
  if meanSecs = 0 then (if nie = 0 then 0 else u32Max)
  else castF32ToU32 (expectedTimeSeconds / meanSecs)

/-- Lines 511-514: preferred_number_of_iterations =
max_runs.min(min_runs.max(cast of expected / mean)). -/
def preferredNumberOfIterations (minRuns maxRuns : ℕ) (meanSecs : ℚ) : ℕ :=
  min maxRuns (max minRuns (rawTargetCount (numInitialEstimates maxRuns) meanSecs))

/-- Lines 519-531: the remaining executions, indices
num_initial_estimates..preferred_number_of_iterations (empty when the
preferred count does not exceed the initial-estimate count). -/
def remainingIterations (minRuns maxRuns : ℕ) (runs : ℕ → Duration) : List Duration :=
  (List.range'
      (numInitialEstimates maxRuns)
      (preferredNumberOfIterations minRuns maxRuns (meanEstimatedSecs maxRuns runs)
        - numInitialEstimates maxRuns)).map
    runs

/-- Lines 533-547: the returned sample set, initial estimates followed by the
remaining iterations, in execution order. -/
def getTimings (minRuns maxRuns : ℕ) (runs : ℕ → Duration) : List Duration :=
  initialEstimates maxRuns runs ++ remainingIterations minRuns maxRuns runs

/-! Execution orchestrator, sequential path of BenchifyConfig::execute
(main.rs lines 578-603).

The pairs are iterated test-major, tool-minor; the model works over the
flattened pair list.  For each pair the closure runs
tool.prepare(test, None)? (a plain question-mark propagation), then
let timings = self.get_timings(..) (a CAPTURED Result, not propagated), then
tool.cleanup(test)?, and yields Ok((test, tool, timings)); the whole iterator
is drained by collect::<Result<Vec<_>>>, which stops at the first Err and
never invokes the later (lazy) closures.  Each pair is modelled by the results
its three phases would produce; runPair also returns the list of phases whose
code actually executed. -/

/-- Phases of a single (test, tool) pair in the sequential path. -/
inductive Phase
  | prepPhase
  | measurePhase
  | cleanupPhase
deriving Repr, DecidableEq

deriving instance DecidableEq for Except

/-- Results that the three phases of one (test, tool) pair would produce if
executed: prepare, the adaptive-sampling measurement, and cleanup. -/
structure PairSpec where
  prepareResult : Except String Unit
  timingsResult : Except String (List Duration)
  cleanupResult : Except String Unit
deriving Repr, DecidableEq

/-- One pair of the sequential path (main.rs lines 586-597): prepare with ?,
then get_timings captured as a value, then cleanup with ?.  First component:
the phases that executed; second: Ok with the pair's recorded timings Result,
or the error propagated by one of the two question marks. -/
def runPair (p : PairSpec) : List Phase × Except String (Except String (List Duration)) :=
  match p.prepareResult with
  | Except.error e => ([Phase.prepPhase], Except.error e)
  | Except.ok _ =>
    match p.cleanupResult with
    | Except.error e =>
      ([Phase.prepPhase, Phase.measurePhase, Phase.cleanupPhase], Except.error e)
    | Except.ok _ =>
      ([Phase.prepPhase, Phase.measurePhase, Phase.cleanupPhase],
        Except.ok p.timingsResult)

/-- The collect::<Result<Vec<_>>> of main.rs line 600 over all pairs:
short-circuits at the first propagated error, leaving the later pairs
unexecuted (their phase lists do not appear in the trace). -/
def executeSeq : List PairSpec → List Phase × Except String (List (Except String (List Duration)))
  | [] => ([], Except.ok [])
  | p :: ps =>
    match runPair p with
    | (tr, Except.error e) => (tr, Except.error e)
    | (tr, Except.ok outcome) =>
      match executeSeq ps with
      | (tr2, Except.error e) => (tr ++ tr2, Except.error e)
      | (tr2, Except.ok outcomes) => (tr ++ tr2, Except.ok (outcome :: outcomes))

/-! Results aggregator: comparison-baseline selection in format_summary
(main.rs lines 613-636).  Each tool's entry for the test carries either its
computed Statistics or the pair's failure message. -/

/-- Rust Iterator::min_by_key keyed on the Statistics mean (line 634); the
first minimal element is kept, and None is returned on an empty iterator. -/
def minByMeanKey : List (String × Statistics) → Option (String × Statistics)
  | [] => none
  | x :: xs => some (xs.foldl (fun acc y => if y.2.mean < acc.2.mean then y else acc) x)

/-- Lines 631-633: .filter(|(_t, s)| s.is_ok()).map(|(t, s)| (t, s.unwrap())). -/
def successfulSummaries (summaries : List (String × Except String Statistics)) :
    List (String × Statistics) :=
  summaries.filterMap fun p =>
    match p.2 with
    | Except.ok s => some (p.1, s)
    | Except.error _ => none

/-- Comparison-point selection of format_summary (lines 623-636).  A none
result models a panic of the source: the .unwrap() of the find (main tool
missing) or of the main tool's errored Statistics, and — with no main tool —
the .unwrap() at line 635 of min_by_key's None when no tool succeeded. -/
def comparisonPoint (mainTool : Option String)
    (summaries : List (String × Except String Statistics)) :
    Option (String × Statistics) :=
  match mainTool with
  | some m =>
    match summaries.find? (fun p => p.1 == m) with
    | some (t, Except.ok s) => some (t, s)
    | _ => none
  | none => minByMeanKey (successfulSummaries summaries)

/-! Concurrency limiter (src/wait_for_free_cpu.rs).

The shared state is a mutex-protected pair (num_cpus, num_blocked),
initialised to (num_cpus::get(), 0).  Every mutation happens with the mutex
held, so an execution is an interleaving of three atomic steps:
- acquire: the successful branch of the and_run loop (lines 23-25), enabled
  when num_blocked < num_cpus, increments num_blocked;
- release: line 27 after the closure returns, decrements num_blocked (every
  release is preceded by a matching acquire, hence the 0 < num_blocked guard);
- setLimit: restrict_free_cpus_to (lines 40-55).
The host CPU count num_cpus::get() is the constant totalCpus. -/

/-- The WaitForFreeCPU state of wait_for_free_cpu.rs lines 4-7. -/
structure WaitForFreeCPU where
  numCpus : ℕ
  numBlocked : ℕ
deriving Repr, DecidableEq

/-- restrict_free_cpus_to (lines 40-55): the requested limit n is raised to
num_blocked, then capped by num_cpus::get(), and stored as num_cpus. -/
def restrictFreeCpusTo (totalCpus n : ℕ) (w : WaitForFreeCPU) : WaitForFreeCPU :=
  { w with numCpus := min (max n w.numBlocked) totalCpus }

/-- The atomic (mutex-protected) transitions of the limiter. -/
inductive GateStep (totalCpus : ℕ) : WaitForFreeCPU → WaitForFreeCPU → Prop
  | acquire (w : WaitForFreeCPU) (h : w.numBlocked < w.numCpus) :
      GateStep totalCpus w { w with numBlocked := w.numBlocked + 1 }
  | release (w : WaitForFreeCPU) (h : 0 < w.numBlocked) :
      GateStep totalCpus w { w with numBlocked := w.numBlocked - 1 }
  | setLimit (w : WaitForFreeCPU) (n : ℕ) :
      GateStep totalCpus w (restrictFreeCpusTo totalCpus n w)

/-- States reachable from the lazy_static initial state
(num_cpus::get(), 0) by any interleaving of limiter operations. -/
inductive GateReachable (totalCpus : ℕ) : WaitForFreeCPU → Prop
  | init : GateReachable totalCpus ⟨totalCpus, 0⟩
  | step {w w' : WaitForFreeCPU} :
      GateReachable totalCpus w → GateStep totalCpus w w' → GateReachable totalCpus w'

/-! Helper lemmas about the fold-based minimum/maximum and the truncating
duration mean. -/

theorem foldl_min_le_init (l : List ℕ) (a : ℕ) : l.foldl Nat.min a ≤ a := by
  induction l generalizing a with
  | nil => exact le_refl a
  | cons x xs ih => exact le_trans (ih (Nat.min a x)) (Nat.min_le_left a x)

theorem le_foldl_max_init (l : List ℕ) (a : ℕ) : a ≤ l.foldl Nat.max a := by
  induction l generalizing a with
  | nil => exact le_refl a
  | cons x xs ih => exact le_trans (Nat.le_max_left a x) (ih (Nat.max a x))

theorem length_mul_foldl_min_le_sum (l : List ℕ) (a : ℕ) :
    (l.length + 1) * l.foldl Nat.min a ≤ a + l.sum := by
  induction l generalizing a with
  | nil => simp
  | cons x xs ih =>
    have h1 := ih (Nat.min a x)
    have h2 := foldl_min_le_init xs (Nat.min a x)
    simp only [List.foldl_cons, List.sum_cons, List.length_cons]
    calc (xs.length + 1 + 1) * xs.foldl Nat.min (Nat.min a x)
        = (xs.length + 1) * xs.foldl Nat.min (Nat.min a x)
            + xs.foldl Nat.min (Nat.min a x) := by ring
      _ ≤ (Nat.min a x + xs.sum) + xs.foldl Nat.min (Nat.min a x) :=
          Nat.add_le_add_right h1 _
      _ ≤ (Nat.min a x + xs.sum) + a :=
          Nat.add_le_add_left (le_trans h2 (Nat.min_le_left a x)) _
      _ ≤ (x + xs.sum) + a :=
          Nat.add_le_add_right (Nat.add_le_add_right (Nat.min_le_right a x) _) a
      _ = a + (x + xs.sum) := by ring

theorem sum_le_length_mul_foldl_max (l : List ℕ) (a : ℕ) :
    a + l.sum ≤ (l.length + 1) * l.foldl Nat.max a := by
  induction l generalizing a with
  | nil => simp
  | cons x xs ih =>
    have h1 := ih (Nat.max a x)
    have h2 := le_foldl_max_init xs (Nat.max a x)
    have ha : a ≤ xs.foldl Nat.max (Nat.max a x) :=
      le_trans (Nat.le_max_left a x) h2
    simp only [List.foldl_cons, List.sum_cons, List.length_cons]
    calc a + (x + xs.sum)
        ≤ xs.foldl Nat.max (Nat.max a x) + (x + xs.sum) :=
          Nat.add_le_add_right ha _
      _ ≤ xs.foldl Nat.max (Nat.max a x) + (Nat.max a x + xs.sum) :=
          Nat.add_le_add_left (Nat.add_le_add_right (Nat.le_max_right a x) _) _
      _ ≤ xs.foldl Nat.max (Nat.max a x) + (xs.length + 1) * xs.foldl Nat.max (Nat.max a x) :=
          Nat.add_le_add_left h1 _
      _ = (xs.length + 1 + 1) * xs.foldl Nat.max (Nat.max a x) := by ring

/-- C9: for every nonempty sample set, the pairwise minimum is at most the
(nanosecond-truncated) arithmetic mean, which is at most the pairwise maximum;
and whenever Statistics::new returns (count at least 2, see C7), its min, mean
and max fields are exactly those three computations. -/
theorem c9_statistics_min_mean_max (data : List Duration) (h : data ≠ []) :
    durationListMin data ≤ durationMean data
    ∧ durationMean data ≤ durationListMax data
    ∧ ∀ s, Statistics.new? data = some s →
        s.min = durationListMin data ∧ s.mean = durationMean data
          ∧ s.max = durationListMax data := by
  obtain ⟨d, rest, rfl⟩ := List.exists_cons_of_ne_nil h
  have hmin : durationListMin (d :: rest) ≤ durationMean (d :: rest) := by
    simp only [durationMean, durationListMin, List.sum_cons, List.length_cons]
    rw [Nat.le_div_iff_mul_le (Nat.succ_pos rest.length), Nat.mul_comm]
    exact length_mul_foldl_min_le_sum rest d
  have hmax : durationMean (d :: rest) ≤ durationListMax (d :: rest) := by
    simp only [durationMean, durationListMax, List.sum_cons, List.length_cons]
    have h2 : (d + rest.sum) / (rest.length + 1)
        ≤ ((rest.length + 1) * rest.foldl Nat.max d) / (rest.length + 1) :=
      Nat.div_le_div_right (sum_le_length_mul_foldl_max rest d)
    rwa [Nat.mul_div_cancel_left _ (Nat.succ_pos rest.length)] at h2
  refine ⟨hmin, hmax, ?_⟩
  intro s hs
  unfold Statistics.new? at hs
  rw [if_neg (by simp)] at hs
  rcases hEq : f64Div (squaredDeviationSum (d :: rest))
      ((((d :: rest).length - 1 : ℕ) : ℚ) ^ 2) with _ | v
  · rw [hEq] at hs; cases hs
  · rw [hEq] at hs
    cases hs
    exact ⟨rfl, rfl, rfl⟩

/-- C9 witness: the bounds at the concrete sample set of 3 ns and 5 ns. -/
theorem c9_statistics_min_mean_max_witness :
    durationListMin [3, 5] ≤ durationMean [3, 5]
    ∧ durationMean [3, 5] ≤ durationListMax [3, 5] :=
  ⟨(c9_statistics_min_mean_max [3, 5] (by decide)).1,
    (c9_statistics_min_mean_max [3, 5] (by decide)).2.1⟩

/-- C8: with max_runs = 1 the sampler takes exactly one initial-estimate run
and zero additional benchmarking iterations, so the returned sample set has
exactly one duration, whatever min_runs and the run durations are. -/
theorem c8_max_runs_one (minRuns : ℕ) (runs : ℕ → Duration) :
    (initialEstimates 1 runs).length = 1
    ∧ (remainingIterations minRuns 1 runs).length = 0
    ∧ (getTimings minRuns 1 runs).length = 1 := by
  have h2 : preferredNumberOfIterations minRuns 1 (meanEstimatedSecs 1 runs) ≤ 1 :=
    Nat.min_le_left _ _
  refine ⟨rfl, ?_, ?_⟩
  · simp only [remainingIterations, List.length_map, List.length_range']
    have : numInitialEstimates 1 = 1 := rfl
    omega
  · simp only [getTimings, List.length_append, initialEstimates, remainingIterations,
      List.length_map, List.length_range, List.length_range']
    have : numInitialEstimates 1 = 1 := rfl
    omega

/-- C3 counterexample: with min_runs = 0, max_runs = 1000 and every run taking
10 s, the clamp formula clamp(min_runs, max_runs, 2.5 / mean) evaluates to 0,
yet the sampler returns 2 durations (the initial estimates are always kept),
refuting the claim that exactly the clamped count is returned. -/
theorem c3_clamp_count_counterexample :
    (getTimings 0 1000 (fun _ => 10000000000)).length = 2
    ∧ preferredNumberOfIterations 0 1000
        (meanEstimatedSecs 1000 (fun _ => 10000000000)) = 0 := by
  have h1 : meanEstimatedSecs 1000 (fun _ => 10000000000) = 10 := by
    norm_num [meanEstimatedSecs, initialEstimates, numInitialEstimates, asSecs,
      nanosPerSec, List.range_succ]
  have h2 : preferredNumberOfIterations 0 1000
      (meanEstimatedSecs 1000 (fun _ => 10000000000)) = 0 := by
    rw [preferredNumberOfIterations, h1]
    simp only [rawTargetCount, castF32ToU32, expectedTimeSeconds, numInitialEstimates, u32Max]
    norm_num
  refine ⟨?_, h2⟩
  simp [getTimings, initialEstimates, remainingIterations, numInitialEstimates, h2]

/-- C3 amended: the sampler returns exactly
max(min(max_runs, 2), clamp(min_runs, max_runs, 2.5 / mean)) durations — the
clamped target, except that the initial estimates are never dropped when the
clamp falls below their number.  In particular, for min_runs = 10,
max_runs = 1000 and a per-iteration mean of 50 ms, exactly 50 durations are
returned. -/
theorem c3_sample_count (minRuns maxRuns : ℕ) (runs : ℕ → Duration) :
    (getTimings minRuns maxRuns runs).length
      = max (numInitialEstimates maxRuns)
          (preferredNumberOfIterations minRuns maxRuns (meanEstimatedSecs maxRuns runs))
    ∧ (getTimings 10 1000 (fun _ => 50000000)).length = 50 := by
  constructor
  · simp only [getTimings, List.length_append, initialEstimates, remainingIterations,
      List.length_map, List.length_range, List.length_range']
    omega
  · have h1 : meanEstimatedSecs 1000 (fun _ => 50000000) = 1 / 20 := by
      norm_num [meanEstimatedSecs, initialEstimates, numInitialEstimates, asSecs,
        nanosPerSec, List.range_succ]
    have h2 : preferredNumberOfIterations 10 1000
        (meanEstimatedSecs 1000 (fun _ => 50000000)) = 50 := by
      rw [preferredNumberOfIterations, h1]
      simp only [rawTargetCount, castF32ToU32, expectedTimeSeconds, numInitialEstimates, u32Max]
      norm_num
      decide
    simp [getTimings, initialEstimates, remainingIterations, numInitialEstimates, h2]

/-- C2 counterexample: with stdout_is_timing set, a self-reported duration
EQUAL to the externally measured elapsed time (both 100 ms) is accepted and
returned, not treated as a failure: the source only rejects
timing > elapsed_time, so reported greater than OR EQUAL is not a failure. -/
theorem c2_tie_accepted_counterexample :
    runTimingResult true 100000000 100000000 = Except.ok 100000000 := rfl

/-- C2 amended: with stdout_is_timing set, the run succeeds and returns the
self-reported duration if and only if it is less than or equal to the external
elapsed time; only a strictly greater report fails.  The spec's two examples
(150 ms vs 100 ms fails; 80 ms vs 100 ms succeeds with 80 ms) hold. -/
theorem c2_stdout_timing_le (reported elapsed : Duration) :
    (reported ≤ elapsed → runTimingResult true reported elapsed = Except.ok reported)
    ∧ (elapsed < reported →
        runTimingResult true reported elapsed
          = Except.error "Program lied about elapsed time at stdout") := by
  constructor
  · intro h
    simp [runTimingResult, Nat.not_lt.mpr h]
  · intro h
    simp [runTimingResult, h]

/-- C2 witness: the amended rule at the spec's two concrete examples. -/
theorem c2_stdout_timing_le_witness :
    runTimingResult true 80000000 100000000 = Except.ok 80000000
    ∧ runTimingResult true 150000000 100000000
        = Except.error "Program lied about elapsed time at stdout" :=
  ⟨(c2_stdout_timing_le 80000000 100000000).1 (by decide),
    (c2_stdout_timing_le 150000000 100000000).2 (by decide)⟩

/-- C1: evaluation of Statistics::new at the sample set [0 s, 2 s, 4 s]
(count 3, squared-deviation sum 8 s²).  The source computes
sample_variance = 8 / (3 - 1)² = 2, i.e. sample_stddev = √2 s, whereas
Bessel's correction gives 8 / (3 - 1) = 4, i.e. stddev 2 s: the denominator of
the source is the SQUARE of (count - 1), so the claimed formula fails. -/
theorem c1_bessel_denominator_squared :
    (Statistics.new? [0, 2000000000, 4000000000]).map Statistics.sampleVariance = some 2
    ∧ squaredDeviationSum [0, 2000000000, 4000000000]
        / ((([0, 2000000000, 4000000000] : List Duration).length - 1 : ℕ) : ℚ) = 4 := by
  have hssd : squaredDeviationSum [0, 2000000000, 4000000000] = 8 := by
    norm_num [squaredDeviationSum, durationMean, asSecs, nanosPerSec]
  constructor
  · simp only [Statistics.new?, f64Div, hssd]
    norm_num
  · rw [hssd]
    norm_num

/-- C7: on a single-sample set the variance denominator (count - 1)² is zero,
the f64 division is 0.0/0.0 = NaN, and Duration::from_secs_f64 panics on the
resulting non-finite stddev (modelled: Statistics::new returns no value)
instead of applying a defined policy such as stddev = 0. -/
theorem c7_single_sample_panics : Statistics.new? [1000000000] = none := by
  norm_num [Statistics.new?, f64Div]

/-- C4: with no main tool configured and a test for which no tool succeeded,
the filtered success list is empty, min_by_key yields None, and the source
calls .unwrap() on it — a panic, modelled by comparisonPoint returning none —
instead of skipping ratio computation for that summary. -/
theorem c4_no_success_unwrap_panics :
    comparisonPoint none
      [("toolA", Except.error "Command exited with non zero status code 1")] = none := rfl

/-- C5 counterexample: in the sequential path, a preparation failure of the
first (test, tool) pair is NOT recorded as that pair's Outcome only: the ?
operator propagates it through collect::<Result<Vec<_>>>, the run aborts with
that error, the sibling pair is never executed (its phases are absent from the
trace) and no Results collection is produced. -/
theorem c5_prep_failure_aborts_counterexample :
    executeSeq [⟨Except.error "Preparation failed", Except.ok [1], Except.ok ()⟩,
                ⟨Except.ok (), Except.ok [2], Except.ok ()⟩]
      = ([Phase.prepPhase], Except.error "Preparation failed") := rfl

/-- C5 amended: outside the parallel-preparation path, a MEASUREMENT failure
of one (test, tool) pair is recorded as that pair's Outcome only and does not
abort sibling pairs: whenever every pair's preparation and cleanup succeed,
execution reaches every pair and the Results collection contains each pair's
timings Result, failed or not, in order.  Preparation and cleanup failures, by
contrast, propagate and abort the whole run (see the counterexample). -/
theorem c5_measurement_failure_is_local (pairs : List PairSpec)
    (h : ∀ p ∈ pairs, p.prepareResult = Except.ok () ∧ p.cleanupResult = Except.ok ()) :
    (executeSeq pairs).2 = Except.ok (pairs.map PairSpec.timingsResult) := by
  induction pairs with
  | nil => rfl
  | cons p ps ih =>
    obtain ⟨hp, hc⟩ := h p (List.mem_cons_self p ps)
    have ih2 := ih fun q hq => h q (List.mem_cons_of_mem p hq)
    rcases hE : executeSeq ps with ⟨tr2, r2⟩
    rw [hE] at ih2
    simp only at ih2
    simp only [executeSeq, runPair, hp, hc, hE, ih2, List.map_cons]

/-- C5 witness: two pairs with successful preparation and cleanup, the first
failing during measurement; both outcomes appear, in order. -/
theorem c5_measurement_failure_is_local_witness :
    (executeSeq [⟨Except.ok (), Except.error "Command exited with non zero status code 1",
                   Except.ok ()⟩,
                 ⟨Except.ok (), Except.ok [5], Except.ok ()⟩]).2
      = Except.ok [Except.error "Command exited with non zero status code 1",
                   Except.ok [5]] :=
  c5_measurement_failure_is_local _ (by decide)

/-- C10: in the sequential path, when preparation succeeded and the
measurement phase failed, the cleanup phase still executes (it is in the
pair's executed-phase trace); the measurement error is recorded as the pair's
Outcome in the Results collection when cleanup succeeds, and a cleanup failure
propagates through the ? operator and aborts the entire run, not only that
pair. -/
theorem c10_cleanup_runs_and_aborts (p : PairSpec) (ps : List PairSpec) (e : String)
    (hp : p.prepareResult = Except.ok ()) (hm : p.timingsResult = Except.error e) :
    Phase.cleanupPhase ∈ (runPair p).1
    ∧ (p.cleanupResult = Except.ok () →
        (executeSeq (p :: ps)).2
          = Except.map (fun rest => Except.error e :: rest) (executeSeq ps).2)
    ∧ (∀ msg, p.cleanupResult = Except.error msg →
        (executeSeq (p :: ps)).2 = Except.error msg) := by
  refine ⟨?_, ?_, ?_⟩
  · rcases hc : p.cleanupResult with msg | u <;> simp [runPair, hp, hc]
  · intro hc
    rcases hE : executeSeq ps with ⟨tr2, r2⟩
    rcases r2 with msg | outcomes <;>
      simp [executeSeq, runPair, hp, hc, hm, hE, Except.map]
  · intro msg hc
    simp [executeSeq, runPair, hp, hc]

/-- C10 witness: a pair with failing measurement and succeeding cleanup,
followed by one healthy sibling. -/
theorem c10_cleanup_runs_and_aborts_witness :
    Phase.cleanupPhase ∈
      (runPair ⟨Except.ok (), Except.error "Command exited with non zero status code 1",
        Except.ok ()⟩).1
    ∧ (executeSeq [⟨Except.ok (), Except.error "Command exited with non zero status code 1",
                     Except.ok ()⟩,
                   ⟨Except.ok (), Except.ok [7], Except.ok ()⟩]).2
        = Except.map
            (fun rest => Except.error "Command exited with non zero status code 1" :: rest)
            (executeSeq [(⟨Except.ok (), Except.ok [7], Except.ok ()⟩ : PairSpec)]).2 := by
  have h := c10_cleanup_runs_and_aborts
    ⟨Except.ok (), Except.error "Command exited with non zero status code 1", Except.ok ()⟩
    [⟨Except.ok (), Except.ok [7], Except.ok ()⟩]
    "Command exited with non zero status code 1" rfl rfl
  exact ⟨h.1, h.2.1 rfl⟩

/-- The limiter invariant num_blocked ≤ num_cpus ∧ num_cpus ≤ totalCpus is
inductive over every atomic limiter operation. -/
theorem gateInv_of_reachable (totalCpus : ℕ) (w : WaitForFreeCPU)
    (h : GateReachable totalCpus w) :
    w.numBlocked ≤ w.numCpus ∧ w.numCpus ≤ totalCpus := by
  induction h with
  | init => exact ⟨Nat.zero_le _, le_refl _⟩
  | step hr hs ih =>
    cases hs with
    | acquire hlt => exact ⟨hlt, ih.2⟩
    | release hpos => exact ⟨le_trans (Nat.sub_le _ 1) ih.1, ih.2⟩
    | setLimit n =>
      obtain ⟨h1, h2⟩ := ih
      refine ⟨?_, ?_⟩ <;> simp only [restrictFreeCpusTo] <;> omega

/-- C6: every state of the concurrency limiter reachable by any interleaving
of acquire/release/set_limit satisfies in_use ≤ ceiling ≤ total processing
units; moreover, from any such state, set_limit(n) stores a ceiling that is
never below the slots currently in use and never above the total processing
units. -/
theorem c6_limiter_invariant (totalCpus : ℕ) (w : WaitForFreeCPU)
    (h : GateReachable totalCpus w) :
    (w.numBlocked ≤ w.numCpus ∧ w.numCpus ≤ totalCpus)
    ∧ ∀ n, w.numBlocked ≤ (restrictFreeCpusTo totalCpus n w).numCpus
        ∧ (restrictFreeCpusTo totalCpus n w).numCpus ≤ totalCpus := by
  obtain ⟨h1, h2⟩ := gateInv_of_reachable totalCpus w h
  refine ⟨⟨h1, h2⟩, fun n => ⟨?_, ?_⟩⟩ <;> simp only [restrictFreeCpusTo] <;> omega

/-- C6 witness: the state (num_cpus = 4, num_blocked = 1) reached from the
initial state with 4 host CPUs by one acquire, and the set_limit request n = 0
from it (which clamps up to the in-use count 1). -/
theorem c6_limiter_invariant_witness :
    (((WaitForFreeCPU.mk 4 1).numBlocked ≤ (WaitForFreeCPU.mk 4 1).numCpus)
      ∧ (WaitForFreeCPU.mk 4 1).numCpus ≤ 4)
    ∧ ((WaitForFreeCPU.mk 4 1).numBlocked
          ≤ (restrictFreeCpusTo 4 0 (WaitForFreeCPU.mk 4 1)).numCpus
        ∧ (restrictFreeCpusTo 4 0 (WaitForFreeCPU.mk 4 1)).numCpus ≤ 4) := by
  have hr : GateReachable 4 (WaitForFreeCPU.mk 4 1) :=
    GateReachable.step GateReachable.init
      (GateStep.acquire (WaitForFreeCPU.mk 4 0) (by decide))
  have h := c6_limiter_invariant 4 (WaitForFreeCPU.mk 4 1) hr
  exact ⟨h.1, h.2 0⟩

end Benchify
